import Mathlib

/-!
Verification of the RLM playground backend core against its specification.

The development shallowly embeds the four core modules of the backend:

* `StatusProvider` — the trace builder
  (`app/domains/rlm/dspy/status_provider.py`, class `RLMStatusMessageProvider`):
  lifecycle hooks become parent-linked step records via an id counter and an
  explicit open-scope stack.
* `WorkerProc` — the worker subprocess (`app/domains/rlm/repl/worker.py`):
  result-line emission discipline and the tool-call proxy.
* `Repl` — the execution coordinator (`app/domains/rlm/repl/repl.py`):
  the code-escape preprocessing heuristic, the stdout demultiplexing loop,
  and host-side tool-call handling.
* `Controller` — the stream controller (`app/domains/rlm/controller.py`):
  request validation and the producer side of the queue pipeline.

Python mutable state is embedded as explicit state passing; Python exceptions
as `Except`/`Option`; the outside world (the reasoning engine, the spawned
process, JSON decoding of wire lines) as parameters recording the outcome of
each external interaction, exactly at the points where the source consults it.
-/

namespace StatusProvider

/-- The `type` field of an emitted step record; one constructor per
emission site of `RLMStatusMessageProvider`. -/
inductive StepType
  | lm_call_start
  | lm_call_end
  | tool_call_start
  | tool_call_end
  | module_start
  | module_end
deriving Repr, DecidableEq

/-- One emitted step record.  `corr` is the correlation id carried in the
record's metadata: the `tool_id` of a `tool_call_end` record or the
`module_id` of a `module_end` record (`none` for every other record kind,
and `none` on an end record when the stack was empty, embedding Python's
`None`). -/
structure StepRecord where
  id : Nat
  parent_id : Option Nat
  type : StepType
  corr : Option Nat
deriving Repr, DecidableEq

/-- The mutable state of `RLMStatusMessageProvider`: the `step_id` counter
(initially 0) and the `module_stack` of open scope ids (top = head). -/
structure ProviderState where
  step_id : Nat
  module_stack : List Nat
deriving Repr, DecidableEq

/-- The state set up by `__init__`: `step_id = 0`, empty stack. -/
def initState : ProviderState := { step_id := 0, module_stack := [] }

/-- `_next_id`: increment the counter and return it. -/
def next_id (s : ProviderState) : Nat × ProviderState :=
  (s.step_id + 1, { s with step_id := s.step_id + 1 })

/-- `_current_parent`: top of the stack, or `None` when empty. -/
def current_parent (s : ProviderState) : Option Nat :=
  s.module_stack.head?

/-- `lm_start_status_message`: allocate an id, emit a leaf record whose
parent is the current stack top.  (Timing bookkeeping is not modelled.) -/
def lm_start_status_message (s : ProviderState) : StepRecord × ProviderState :=
  let p := next_id s
  ({ id := p.1, parent_id := current_parent p.2, type := .lm_call_start,
     corr := none }, p.2)

/-- `lm_end_status_message`: allocate an id, emit a leaf record whose
parent is the current stack top. -/
def lm_end_status_message (s : ProviderState) : StepRecord × ProviderState :=
  let p := next_id s
  ({ id := p.1, parent_id := current_parent p.2, type := .lm_call_end,
     corr := none }, p.2)

/-- `tool_start_status_message`: allocate an id, emit a record whose parent
is the current stack top, then push the new id onto the stack. -/
def tool_start_status_message (s : ProviderState) : StepRecord × ProviderState :=
  let p := next_id s
  let r : StepRecord :=
    { id := p.1, parent_id := current_parent p.2, type := .tool_call_start,
      corr := none }
  (r, { p.2 with module_stack := p.1 :: p.2.module_stack })

/-- `tool_end_status_message`: `tool_id = self.module_stack.pop() if
self.module_stack else None` (pop the top when nonempty, else `None`),
then allocate a fresh id and emit a record whose parent is the new stack
top, carrying `tool_id` in its metadata. -/
def tool_end_status_message (s : ProviderState) : StepRecord × ProviderState :=
  let tool_id := s.module_stack.head?
  let s1 : ProviderState := { s with module_stack := s.module_stack.tail }
  let p := next_id s1
  ({ id := p.1, parent_id := current_parent p.2, type := .tool_call_end,
     corr := tool_id }, p.2)

/-- `module_start_status_message`: allocate an id, emit a record whose
parent is the current stack top, then push the new id. -/
def module_start_status_message (s : ProviderState) : StepRecord × ProviderState :=
  let p := next_id s
  let r : StepRecord :=
    { id := p.1, parent_id := current_parent p.2, type := .module_start,
      corr := none }
  (r, { p.2 with module_stack := p.1 :: p.2.module_stack })

/-- `module_end_status_message`: conditional pop as in
`tool_end_status_message`, fresh id, parent = new stack top, popped
`module_id` in metadata. -/
def module_end_status_message (s : ProviderState) : StepRecord × ProviderState :=
  let module_id := s.module_stack.head?
  let s1 : ProviderState := { s with module_stack := s.module_stack.tail }
  let p := next_id s1
  ({ id := p.1, parent_id := current_parent p.2, type := .module_end,
     corr := module_id }, p.2)

/-- A lifecycle hook invocation, one constructor per provider method. -/
inductive Hook
  | lm_start
  | lm_end
  | tool_start
  | tool_end
  | module_start
  | module_end
deriving Repr, DecidableEq

/-- Dispatch a hook to the method embedding it. -/
def apply_hook : Hook → ProviderState → StepRecord × ProviderState
  | .lm_start => lm_start_status_message
  | .lm_end => lm_end_status_message
  | .tool_start => tool_start_status_message
  | .tool_end => tool_end_status_message
  | .module_start => module_start_status_message
  | .module_end => module_end_status_message

/-- Run a sequence of hooks from a state, collecting the emitted records
in emission order. -/
def run_hooks : List Hook → ProviderState → List StepRecord × ProviderState
  | [], s => ([], s)
  | h :: hs, s =>
    let p := apply_hook h s
    let q := run_hooks hs p.2
    (p.1 :: q.1, q.2)

end StatusProvider

/-- A JSON-serializable wire value, rich enough for the tool-call payloads
the claims exercise. -/
inductive Val
  | vstr (s : String)
  | vnat (n : Nat)
  | vbool (b : Bool)
  | vnone
deriving Repr, DecidableEq

namespace WorkerProc

/-- The payload of a worker result line:
`{success, output, error?, variables?}` as built at the four `send_message`
sites of `worker.main`. -/
structure WResult where
  success : Bool
  output : String
  error : Option String
  vars : Option (List (String × String))
deriving Repr, DecidableEq

/-- A line the worker writes to stdout: either a `__TOOL_CALL__` request
or a `__RESULT__` line. -/
inductive WorkerMsg
  | tool_call (name : String) (args : List Val)
  | result (r : WResult)
deriving Repr, DecidableEq

/-- `WorkerMsg.result`? -/
def is_result : WorkerMsg → Bool
  | .result _ => true
  | _ => false

/-- What `exec(user_code, usage_globals)` did, as observed by `main`:
the tool-call messages the snippet's proxies sent (in order), the output
buffered by the overridden `print` up to the end or up to the fault point,
the uncaught fault's formatted message-plus-trace if one escaped, and the
post-run stringified variable snapshot. -/
structure ExecOutcome where
  tool_msgs : List (String × List Val)
  output : String
  fault : Option String
  vars : List (String × String)

/-- `worker.main` after argument parsing, as the list of stdout lines it
emits.  `ctx_load` and `code_load` record whether unpickling the context
artifact and reading the code artifact succeeded (the `try` blocks at steps
1 and 3), carrying the exception text on failure; `run` records the
execution of the user code (step 4).  On either load failure `main` sends a
failure result and returns; otherwise the snippet's tool-call messages are
followed by exactly one result line: the success result with output and
variables, or — when a fault escaped `exec` — a failure result that still
carries the buffered output. -/
def worker_main (ctx_load : Except String Unit) (code_load : Except String Unit)
    (run : ExecOutcome) : List WorkerMsg :=
  match ctx_load with
  | .error e =>
      [.result { success := false, output := "",
                 error := some ("Failed to load context: " ++ e),
                 vars := none }]
  | .ok _ =>
    match code_load with
    | .error e =>
        [.result { success := false, output := "",
                   error := some ("Failed to load code: " ++ e),
                   vars := none }]
    | .ok _ =>
      (run.tool_msgs.map fun m => WorkerMsg.tool_call m.1 m.2) ++
      (match run.fault with
       | none =>
           [.result { success := true, output := run.output, error := none,
                      vars := some run.vars }]
       | some f =>
           [.result { success := false, output := run.output, error := some f,
                      vars := none }])

/-- A coordinator→worker response line: `{status: success|error, result|error}`. -/
inductive ToolResponse
  | success (result : Val)
  | error (e : String)
deriving Repr, DecidableEq

/-- A worker→coordinator tool-call message: `{name, args}`. -/
structure ToolCallMsg where
  name : String
  args : List Val
deriving Repr, DecidableEq

/-- The body of `create_tool_proxy`'s `proxy_func`: send one
`{name, args}` message, block reading exactly one response line
(`read_response`; `none` embeds `readline` returning no line, which raises
`EOFError "Parent process closed connection"`), then return the carried
result on `status:success` or raise a `RuntimeError` carrying the tool's
error text otherwise.  The first component lists the messages sent. -/
def proxy_func (tool_name : String) (args : List Val)
    (read_response : Option ToolResponse) :
    List ToolCallMsg × Except String Val :=
  let sent := [ToolCallMsg.mk tool_name args]
  match read_response with
  | none => (sent, .error "Parent process closed connection")
  | some (.success r) => (sent, .ok r)
  | some (.error e) =>
      (sent, .error ("Tool '" ++ tool_name ++ "' failed: " ++ e))

end WorkerProc

namespace Repl

/-- Is `sub` a prefix of `l`?  (Embeds Python's substring test anchored at
one position.) -/
def startsWithChars : List Char → List Char → Bool
  | [], _ => true
  | _ :: _, [] => false
  | a :: as, b :: bs => a == b && startsWithChars as bs

/-- Python's `sub in s` on character lists. -/
def hasSub (sub : List Char) : List Char → Bool
  | [] => startsWithChars sub []
  | c :: cs => startsWithChars sub (c :: cs) || hasSub sub cs

/-- Python's `s.count(sub)`: non-overlapping occurrence count. -/
def countSub (sub : List Char) (l : List Char) : Nat :=
  match l with
  | [] => 0
  | c :: cs =>
    if startsWithChars sub (c :: cs) then
      1 + countSub sub (List.drop (sub.length - 1) cs)
    else
      countSub sub cs
termination_by l.length
decreasing_by
  · simp only [List.length_drop, List.length_cons]
    omega
  · simp only [List.length_cons]
    omega

/-- The value of one hexadecimal digit byte, or `none`. -/
def hexVal (b : Nat) : Option Nat :=
  if 48 ≤ b ∧ b ≤ 57 then some (b - 48)
  else if 97 ≤ b ∧ b ≤ 102 then some (b - 87)
  else if 65 ≤ b ∧ b ≤ 70 then some (b - 55)
  else none

/-- An octal digit byte (`0`–`7`)? -/
def isOctalDigit (b : Nat) : Bool := 48 ≤ b && b ≤ 55

/-- UTF-8 encoding of one character, as `str.encode()` produces it. -/
def utf8EncodeChar (c : Char) : List Nat :=
  let v := c.toNat
  if v < 128 then [v]
  else if v < 2048 then [192 + v / 64, 128 + v % 64]
  else if v < 65536 then
    [224 + v / 4096, 128 + v / 64 % 64, 128 + v % 64]
  else
    [240 + v / 262144, 128 + v / 4096 % 64, 128 + v / 64 % 64, 128 + v % 64]

/-- `code.encode()`: the UTF-8 bytes of the string. -/
def utf8Encode : List Char → List Nat
  | [] => []
  | c :: cs => utf8EncodeChar c ++ utf8Encode cs

/-- The scanner state of the `unicode_escape` decoder: between escapes
(`normal`), right after a backslash (`esc`), after one or two octal
digits with the value so far (`oct1`, `oct2`), or inside a `\\x`/`\\u`/`\\U`
escape (`hex kind need v`: the escape letter's byte, how many hex digits
are still required, and the value so far). -/
inductive DecodeState
  | normal
  | esc
  | oct1 (v : Nat)
  | oct2 (v : Nat)
  | hex (kind : Nat) (need : Nat) (v : Nat)
deriving Repr, DecidableEq

/-- The codec's reason text for a truncated `\\x`/`\\u`/`\\U` escape. -/
def truncatedMsg (kind : Nat) : String :=
  if kind = 120 then "truncated \\xXX escape"
  else if kind = 117 then "truncated \\uXXXX escape"
  else "truncated \\UXXXXXXXX escape"

/-- Python's `bytes.decode("unicode_escape")`, written as the scanner it
is in CPython, one byte consumed per step.  A non-backslash byte becomes
the character of its own value (Latin-1), which is what mangles non-ASCII
text after the UTF-8 `encode()`.  A backslash starts an escape:
backslash-newline is a line continuation (emits nothing); the
single-character escapes and unknown escapes (kept verbatim as both
characters) follow CPython; `\\0`–`\\7` read up to three octal digits;
`\\x`, `\\u` and `\\U` require exactly 2, 4 and 8 hex digits and fail with
the codec's reason text otherwise, as does a trailing lone backslash, and
`\\U` rejects values beyond the last code point.  Error values carry the
reason text only (the real `str(e)` prefixes codec name and byte
positions).  Two documented limits of the model: `\\N` escapes are
reported as errors even when CPython would resolve a known character
name via the Unicode name database, and a `\\u` escape naming a lone
surrogate — representable in a Python `str` but not as a Lean `Char` —
comes out as `Char.ofNat`'s default; no theorem below is instantiated at
an input containing either. -/
def unicodeEscapeDecodeAux : DecodeState → List Nat → Except String (List Char)
  | .normal, [] => .ok []
  | .normal, b :: bs =>
    if b = 92 then unicodeEscapeDecodeAux .esc bs
    else (unicodeEscapeDecodeAux .normal bs).map fun t => Char.ofNat b :: t
  | .esc, [] => .error "\\ at end of string"
  | .esc, e :: rest =>
    if e = 10 then unicodeEscapeDecodeAux .normal rest
    else if e = 92 then
      (unicodeEscapeDecodeAux .normal rest).map fun t => '\\' :: t
    else if e = 39 then
      (unicodeEscapeDecodeAux .normal rest).map fun t => '\'' :: t
    else if e = 34 then
      (unicodeEscapeDecodeAux .normal rest).map fun t => '"' :: t
    else if e = 97 then
      (unicodeEscapeDecodeAux .normal rest).map fun t => Char.ofNat 7 :: t
    else if e = 98 then
      (unicodeEscapeDecodeAux .normal rest).map fun t => Char.ofNat 8 :: t
    else if e = 102 then
      (unicodeEscapeDecodeAux .normal rest).map fun t => Char.ofNat 12 :: t
    else if e = 110 then
      (unicodeEscapeDecodeAux .normal rest).map fun t => '\n' :: t
    else if e = 114 then
      (unicodeEscapeDecodeAux .normal rest).map fun t => '\r' :: t
    else if e = 116 then
      (unicodeEscapeDecodeAux .normal rest).map fun t => '\t' :: t
    else if e = 118 then
      (unicodeEscapeDecodeAux .normal rest).map fun t => Char.ofNat 11 :: t
    else if isOctalDigit e then
      unicodeEscapeDecodeAux (.oct1 (e - 48)) rest
    else if e = 120 then unicodeEscapeDecodeAux (.hex 120 2 0) rest
    else if e = 117 then unicodeEscapeDecodeAux (.hex 117 4 0) rest
    else if e = 85 then unicodeEscapeDecodeAux (.hex 85 8 0) rest
    else if e = 78 then .error "malformed \\N character escape"
    else
      (unicodeEscapeDecodeAux .normal rest).map fun t =>
        '\\' :: Char.ofNat e :: t
  | .oct1 v, [] => .ok [Char.ofNat v]
  | .oct1 v, b :: bs =>
    if isOctalDigit b then
      unicodeEscapeDecodeAux (.oct2 (v * 8 + (b - 48))) bs
    else if b = 92 then
      (unicodeEscapeDecodeAux .esc bs).map fun t => Char.ofNat v :: t
    else
      (unicodeEscapeDecodeAux .normal bs).map fun t =>
        Char.ofNat v :: Char.ofNat b :: t
  | .oct2 v, [] => .ok [Char.ofNat v]
  | .oct2 v, b :: bs =>
    if isOctalDigit b then
      (unicodeEscapeDecodeAux .normal bs).map fun t =>
        Char.ofNat (v * 8 + (b - 48)) :: t
    else if b = 92 then
      (unicodeEscapeDecodeAux .esc bs).map fun t => Char.ofNat v :: t
    else
      (unicodeEscapeDecodeAux .normal bs).map fun t =>
        Char.ofNat v :: Char.ofNat b :: t
  | .hex kind _ _, [] => .error (truncatedMsg kind)
  | .hex kind need v, b :: bs =>
    match hexVal b with
    | some d =>
      if need ≤ 1 then
        if kind = 85 ∧ 1114111 < v * 16 + d then
          .error "illegal Unicode character"
        else
          (unicodeEscapeDecodeAux .normal bs).map fun t =>
            Char.ofNat (v * 16 + d) :: t
      else unicodeEscapeDecodeAux (.hex kind (need - 1) (v * 16 + d)) bs
    | none => .error (truncatedMsg kind)

/-- `bytes.decode("unicode_escape")`: run the scanner from its initial
state. -/
def unicodeEscapeDecode (l : List Nat) : Except String (List Char) :=
  unicodeEscapeDecodeAux .normal l

/-- `code.encode().decode("unicode_escape")` as `execute` applies it:
UTF-8 bytes of the code, decoded by the `unicode_escape` codec. -/
def py_unicode_escape (cs : List Char) : Except String (List Char) :=
  unicodeEscapeDecode (utf8Encode cs)

/-- The escaped-newline repair at the head of `RLMREPL.execute`
(`repl.py:82-97`): if the code contains the two-character sequence
backslash-n but no real newline, decode it with `unicode_escape` — this
first branch has no `try/except`, so a decode fault propagates out of the
repair; if instead there are strictly more backslash-n occurrences than
real newlines, decode under a `try/except` that falls back to the raw
code on any fault; otherwise keep the code unchanged. -/
def preprocess_code (code : String) : Except String String :=
  let cs := code.data
  if hasSub ['\\', 'n'] cs && !(hasSub ['\n'] cs) then
    match py_unicode_escape cs with
    | .ok ds => .ok (String.mk ds)
    | .error e => .error e
  else if decide (countSub ['\n'] cs < countSub ['\\', 'n'] cs)
      && hasSub ['\\', 'n'] cs then
    match py_unicode_escape cs with
    | .ok ds => .ok (String.mk ds)
    | .error _ => .ok code
  else
    .ok code

/-- The preprocessing stage of `execute` together with its enclosing
generic handler: a decode fault escaping the repair is caught by the
`except Exception` at `repl.py:166`, and `execute` returns
`{success: false, error: str(e), output: ""}` without writing the code
artifact or spawning a Worker; otherwise the processed code is what is
written to the code artifact. -/
def execute_prepare (code : String) : Except WorkerProc.WResult String :=
  match preprocess_code code with
  | .ok p => .ok p
  | .error e =>
      .error { success := false, output := "", error := some e, vars := none }

/-- A registered tool callable: positional arguments in, a value out, or an
exception text (`str(e)`). -/
abbrev Tool := List Val → Except String Val

/-- The spec's example registered tool `echo(x) → x`: returns its single
positional argument. -/
def echo : Tool := fun args =>
  match args with
  | [x] => .ok x
  | _ => .error "echo expects one argument"

/-- `name in self.tools` / `self.tools[name]` on the registry. -/
def lookup_tool : List (String × Tool) → String → Option Tool
  | [], _ => none
  | (n, f) :: ts, name => if n == name then some f else lookup_tool ts name

/-- The core of `RLMREPL._handle_tool_call` once the payload parsed: look
the tool up, invoke it, and build the response line written back to the
worker — `status:success` with the result, `status:error` with the
exception text, or `status:error` "Unknown tool" for an unregistered name. -/
def handle_tool_call (tools : List (String × Tool)) (name : String)
    (args : List Val) : WorkerProc.ToolResponse :=
  match lookup_tool tools name with
  | some f =>
    match f args with
    | .ok r => .success r
    | .error e => .error e
  | none => .error ("Unknown tool: " ++ name)

/-- A tool proxy call as observed end to end inside one coordinator run:
the worker-side proxy sends its single `{name, args}` message and the
coordinator's `_handle_tool_call` response is the one response line it
reads. -/
def tool_round_trip (tools : List (String × Tool)) (name : String)
    (args : List Val) : List WorkerProc.ToolCallMsg × Except String Val :=
  WorkerProc.proxy_func name args (some (handle_tool_call tools name args))

/-- One iteration's worth of input to `execute`'s stdout loop: what
`process.stdout.readline()` (and, on an empty read, `process.poll()`)
produced, with the tagged lines' JSON decoding outcome recorded where the
source decodes them. -/
inductive LineEvent
  | read_error
  | no_line (exited : Bool)
  | tool_call_line (parsed : Option WorkerProc.ToolCallMsg)
  | result_line (parsed : Option WorkerProc.WResult)
  | other_line
deriving Repr

/-- The loop-carried state of `execute`: the last successfully parsed
`__RESULT__` payload, and the response lines written to the worker's stdin. -/
structure LoopState where
  final_result : Option WorkerProc.WResult
  responses : List WorkerProc.ToolResponse
deriving Repr

/-- `final_result = None` before the loop, nothing written yet. -/
def initLoop : LoopState := { final_result := none, responses := [] }

/-- One iteration of `execute`'s `while True` loop.  Returns the updated
state and whether the loop `break`s: a `readline` exception breaks; an
empty read breaks only when `poll()` shows the process exited, else
`continue`; a `__TOOL_CALL__` line with unparseable payload is caught
inside `_handle_tool_call`, which writes back an "IPC Protocol Error"
response and the loop continues; a parsed tool call writes back the
registry's response; a `__RESULT__` line that fails to decode is logged and
skipped; one that decodes replaces `final_result`; any other line is
ignored. -/
def loop_step (tools : List (String × Tool)) (st : LoopState) :
    LineEvent → LoopState × Bool
  | .read_error => (st, true)
  | .no_line exited => (st, exited)
  | .tool_call_line none =>
      ({ st with responses := st.responses ++ [.error "IPC Protocol Error"] },
       false)
  | .tool_call_line (some m) =>
      ({ st with
         responses := st.responses ++ [handle_tool_call tools m.name m.args] },
       false)
  | .result_line none => (st, false)
  | .result_line (some r) => ({ st with final_result := some r }, false)
  | .other_line => (st, false)

/-- Run the stdout loop over the finite list of read events observed so
far.  `some st` means the loop reached a `break` with state `st`; `none`
means no `break` occurred among these events — `execute` is still inside
the loop (in the real process, blocked in `readline`), so it has not
returned. -/
def run_loop (tools : List (String × Tool)) :
    List LineEvent → LoopState → Option LoopState
  | [], _ => none
  | e :: evs, st =>
    let p := loop_step tools st e
    if p.2 then some p.1 else run_loop tools evs p.1

/-- What `execute` returns once the loop broke and
`stdout, stderr = process.communicate()` / `process.returncode` completed.
`timed_out` is the value built by the `except subprocess.TimeoutExpired`
handler.  Note `communicate()` is invoked with no `timeout` argument, so by
the `subprocess` API contract it never raises `TimeoutExpired`, and no
other statement of `execute`'s body can raise it either: the embedding
therefore has no step that produces `timed_out`. -/
inductive ExecuteOutcome
  | result (r : WorkerProc.WResult)
  | no_result (exit_code : Int) (stderr : String)
  | timed_out (timeout : Nat)
deriving Repr

/-- `ExecuteOutcome.timed_out`? -/
def is_timed_out : ExecuteOutcome → Bool
  | .timed_out _ => true
  | _ => false

/-- The tail of `execute` after the loop: return `final_result` if one was
parsed, else the failure result quoting the exit code and stderr. -/
def finish (st : LoopState) (exit_code : Int) (stderr : String) :
    ExecuteOutcome :=
  match st.final_result with
  | some r => .result r
  | none => .no_result exit_code stderr

/-- `execute`'s observable outcome over a finite list of read events:
`none` while the loop has not broken (the call has not returned), otherwise
the returned dictionary. -/
def execute_outcome (tools : List (String × Tool)) (evs : List LineEvent)
    (exit_code : Int) (stderr : String) : Option ExecuteOutcome :=
  (run_loop tools evs initLoop).map fun st => finish st exit_code stderr

/-- The read events `execute` observes against a worker whose snippet never
terminates and writes nothing: every `readline` wakeup yields no line while
`poll()` still shows the process alive (`n` of them — the call never
advances past them). -/
def hung_worker_events (n : Nat) : List LineEvent :=
  List.replicate n (.no_line false)

end Repl

namespace Controller

/-- An item the producer enqueues: a step record from the trace builder's
callback, or the `_DONE` completion sentinel. -/
inductive QItem
  | step (r : StatusProvider.StepRecord)
  | done
deriving Repr, DecidableEq

/-- `QItem.done`? -/
def is_done : QItem → Bool
  | .done => true
  | _ => false

/-- How the reasoning engine's `rlm.aforward` call ended inside `_produce`:
normal completion with an answer, a `KeyError` (DSPy parsing fault,
recovered with the fallback answer), or any other exception (recorded in
the error slot and re-raised). -/
inductive RunOutcome
  | ok (answer : String)
  | key_error (msg : String)
  | fatal (msg : String)
deriving Repr, DecidableEq

/-- The fallback answer `_produce` substitutes on a `KeyError`. -/
def fallback_answer : String :=
  "Analysis completed but response parsing failed. The steps above show the reasoning process."

/-- What one `_produce` run did to the session: the queue operations in
order, the result slot, the error slot, and whether the exception was
re-raised into the task group. -/
structure ProduceOut where
  queue_ops : List QItem
  result : Option String
  error : Option String
  raised : Bool
deriving Repr, DecidableEq

/-- `RLMStreamController._produce`: the steps emitted through the `on_step`
callback during the run are enqueued as they arrive; the `try/except`
ladder fills the result or error slot per outcome; the `finally` block
enqueues the `_DONE` sentinel unconditionally, after everything else. -/
def produce (steps : List StatusProvider.StepRecord) (outcome : RunOutcome) :
    ProduceOut :=
  let body : List QItem × Option String × Option String × Bool :=
    match outcome with
    | .ok a => (steps.map .step, some a, none, false)
    | .key_error _ => (steps.map .step, some fallback_answer, none, false)
    | .fatal m => (steps.map .step, none, some m, true)
  { queue_ops := body.1 ++ [.done], result := body.2.1,
    error := body.2.2.1, raised := body.2.2.2 }

/-- The decoded initial request JSON as `_receive_and_validate` reads it:
`data.get` yields `none` for a missing key. -/
structure ReqData where
  query : Option String
  context : Option String
  enable_sub_llm : Option Bool
deriving Repr, DecidableEq

/-- Python truthiness of an optional string: `None` and the empty string
are falsy. -/
def truthy : Option String → Bool
  | none => false
  | some s => !(s == "")

/-- The validated request (`RLMRequest` schema). -/
structure RLMRequest where
  query : String
  context : String
  enable_sub_llm : Bool
deriving Repr, DecidableEq

/-- A message sent to the client over the session connection. -/
inductive OutMsg
  | step_msg (r : StatusProvider.StepRecord)
  | final_msg (answer : String)
  | error_msg (e : String)
deriving Repr, DecidableEq

/-- `OutMsg.step_msg`? -/
def is_step_msg : OutMsg → Bool
  | .step_msg _ => true
  | _ => false

/-- `OutMsg.final_msg`? -/
def is_final_msg : OutMsg → Bool
  | .final_msg _ => true
  | _ => false

/-- `RLMStreamController._receive_and_validate`: if `query` or `context` is
missing or empty, send the single error message and return `None`;
otherwise build the request (`enable_sub_llm` defaults to true). -/
def receive_and_validate (d : ReqData) : List OutMsg × Option RLMRequest :=
  if !(truthy d.query) || !(truthy d.context) then
    ([.error_msg "Missing query or context"], none)
  else
    ([], some { query := d.query.getD "", context := d.context.getD "",
                enable_sub_llm := d.enable_sub_llm.getD true })

/-- What running the producer/consumer pipeline on a validated request did:
the step records the consumer forwarded, the result slot, and the fatal
error (if the task group propagated one to `handle`'s handler). -/
structure PipelineRun where
  steps : List StatusProvider.StepRecord
  result : Option String
  fatal : Option String

/-- `RLMStreamController.handle` as the ordered list of messages sent plus
whether the connection was closed.  Validation failure returns from the
`try` body after the single error message — the pipeline is never run — and
the `finally` still closes the connection.  On a validated request the
consumer forwards each step, then either `_handle_error` sends one error
message (fatal pipeline fault) or `_send_final_result` sends the final
answer when a result exists; the `finally` closes in every case. -/
def handle (d : ReqData) (pipeline : RLMRequest → PipelineRun) :
    List OutMsg × Bool :=
  let v := receive_and_validate d
  match v.2 with
  | none => (v.1, true)
  | some req =>
    let run := pipeline req
    match run.fatal with
    | some e => (v.1 ++ run.steps.map .step_msg ++ [.error_msg e], true)
    | none =>
      match run.result with
      | some a => (v.1 ++ run.steps.map .step_msg ++ [.final_msg a], true)
      | none => (v.1 ++ run.steps.map .step_msg, true)

end Controller

namespace StatusProvider

theorem apply_hook_id (h : Hook) (s : ProviderState) :
    (apply_hook h s).1.id = s.step_id + 1 ∧
    (apply_hook h s).2.step_id = s.step_id + 1 := by
  cases h <;>
    simp [apply_hook, lm_start_status_message, lm_end_status_message,
      tool_start_status_message, tool_end_status_message,
      module_start_status_message, module_end_status_message, next_id]

theorem run_hooks_ids (hs : List Hook) (s : ProviderState) :
    ((run_hooks hs s).1.map StepRecord.id)
      = List.range' (s.step_id + 1) hs.length := by
  induction hs generalizing s with
  | nil => simp [run_hooks]
  | cons h hs ih =>
    have hid := apply_hook_id h s
    simp only [run_hooks, List.map_cons, List.length_cons, List.range'_succ]
    rw [hid.1, ih (apply_hook h s).2, hid.2]

theorem tool_end_fields (s : ProviderState) :
    (tool_end_status_message s).1.corr = s.module_stack.head? ∧
    (tool_end_status_message s).1.parent_id = s.module_stack.tail.head? ∧
    (tool_end_status_message s).1.id = s.step_id + 1 ∧
    (tool_end_status_message s).2.module_stack = s.module_stack.tail := by
  simp [tool_end_status_message, next_id, current_parent]

theorem module_end_fields (s : ProviderState) :
    (module_end_status_message s).1.corr = s.module_stack.head? ∧
    (module_end_status_message s).1.parent_id = s.module_stack.tail.head? ∧
    (module_end_status_message s).1.id = s.step_id + 1 ∧
    (module_end_status_message s).2.module_stack = s.module_stack.tail := by
  simp [module_end_status_message, next_id, current_parent]

theorem tool_start_fields (s : ProviderState) :
    (tool_start_status_message s).1.id = s.step_id + 1 ∧
    (tool_start_status_message s).1.parent_id = s.module_stack.head? ∧
    (tool_start_status_message s).2.module_stack
      = (s.step_id + 1) :: s.module_stack := by
  simp [tool_start_status_message, next_id, current_parent]

theorem module_start_fields (s : ProviderState) :
    (module_start_status_message s).1.id = s.step_id + 1 ∧
    (module_start_status_message s).1.parent_id = s.module_stack.head? ∧
    (module_start_status_message s).2.module_stack
      = (s.step_id + 1) :: s.module_stack := by
  simp [module_start_status_message, next_id, current_parent]

end StatusProvider

open StatusProvider WorkerProc Repl Controller

/-- C4: within one session the trace builder's emitted step ids are exactly
`1, 2, …, n` in emission order: they start at 1, are strictly increasing,
and are pairwise distinct. -/
theorem C4_step_ids_strictly_increasing_from_one (hs : List Hook) :
    ((run_hooks hs initState).1.map StepRecord.id) = List.range' 1 hs.length ∧
    List.Pairwise (· < ·) ((run_hooks hs initState).1.map StepRecord.id) ∧
    ((run_hooks hs initState).1.map StepRecord.id).Nodup := by
  have h : ((run_hooks hs initState).1.map StepRecord.id)
      = List.range' 1 hs.length := run_hooks_ids hs initState
  refine ⟨h, ?_, ?_⟩
  · rw [h]
    exact List.pairwise_lt_range' 1 hs.length
  · rw [h]
    exact List.nodup_range' 1 hs.length

/-- C3: a scope-forming start hook allocates a fresh id, sets its record's
`parent_id` to the current top of the open-scope stack (`none` when empty),
emits, and then pushes the new id; the matching end hook — matching in the
sense that the intervening hooks leave the stack exactly as the start left
it — pops that scope id, allocates a new id for the end record, sets the
end record's `parent_id` to the new stack top, and carries the popped id in
the end record's metadata for correlation.  Stated for both scope-forming
kinds, tool and module. -/
theorem C3_scope_hooks_stack_discipline
    (s : ProviderState) (innerT innerM : List Hook)
    (hT : (run_hooks innerT (tool_start_status_message s).2).2.module_stack
          = (tool_start_status_message s).2.module_stack)
    (hM : (run_hooks innerM (module_start_status_message s).2).2.module_stack
          = (module_start_status_message s).2.module_stack) :
    ((tool_start_status_message s).1.id = s.step_id + 1 ∧
     (tool_start_status_message s).1.parent_id = s.module_stack.head? ∧
     (tool_start_status_message s).2.module_stack
       = (tool_start_status_message s).1.id :: s.module_stack ∧
     (tool_end_status_message
         (run_hooks innerT (tool_start_status_message s).2).2).1.corr
       = some (tool_start_status_message s).1.id ∧
     (tool_end_status_message
         (run_hooks innerT (tool_start_status_message s).2).2).1.id
       = (run_hooks innerT (tool_start_status_message s).2).2.step_id + 1 ∧
     (tool_end_status_message
         (run_hooks innerT (tool_start_status_message s).2).2).1.parent_id
       = s.module_stack.head? ∧
     (tool_end_status_message
         (run_hooks innerT (tool_start_status_message s).2).2).2.module_stack
       = s.module_stack) ∧
    ((module_start_status_message s).1.id = s.step_id + 1 ∧
     (module_start_status_message s).1.parent_id = s.module_stack.head? ∧
     (module_start_status_message s).2.module_stack
       = (module_start_status_message s).1.id :: s.module_stack ∧
     (module_end_status_message
         (run_hooks innerM (module_start_status_message s).2).2).1.corr
       = some (module_start_status_message s).1.id ∧
     (module_end_status_message
         (run_hooks innerM (module_start_status_message s).2).2).1.id
       = (run_hooks innerM (module_start_status_message s).2).2.step_id + 1 ∧
     (module_end_status_message
         (run_hooks innerM (module_start_status_message s).2).2).1.parent_id
       = s.module_stack.head? ∧
     (module_end_status_message
         (run_hooks innerM (module_start_status_message s).2).2).2.module_stack
       = s.module_stack) := by
  obtain ⟨ta, tb, tc⟩ := tool_start_fields s
  obtain ⟨ea, eb, ec, ed⟩ :=
    tool_end_fields (run_hooks innerT (tool_start_status_message s).2).2
  rw [hT, tc] at ea eb ed
  simp only [List.head?_cons, List.tail_cons] at ea eb ed
  obtain ⟨ma, mb, mc⟩ := module_start_fields s
  obtain ⟨fa, fb, fc, fd⟩ :=
    module_end_fields (run_hooks innerM (module_start_status_message s).2).2
  rw [hM, mc] at fa fb fd
  simp only [List.head?_cons, List.tail_cons] at fa fb fd
  refine ⟨⟨ta, tb, ?_, ?_, ec, eb, ed⟩, ⟨ma, mb, ?_, ?_, fc, fb, fd⟩⟩
  · rw [ta]; exact tc
  · rw [ta]; exact ea
  · rw [ma]; exact mc
  · rw [ma]; exact fa

/-- Witness for C3 at the initial state with immediately matching end
hooks (no intervening hooks). -/
theorem C3_scope_hooks_stack_discipline_witness :
    ((run_hooks [] (tool_start_status_message initState).2).2.module_stack
      = (tool_start_status_message initState).2.module_stack) ∧
    ((run_hooks [] (module_start_status_message initState).2).2.module_stack
      = (module_start_status_message initState).2.module_stack) ∧
    ((tool_start_status_message initState).1.id = initState.step_id + 1 ∧
     (tool_start_status_message initState).1.parent_id
       = initState.module_stack.head? ∧
     (tool_start_status_message initState).2.module_stack
       = (tool_start_status_message initState).1.id
           :: initState.module_stack ∧
     (tool_end_status_message
         (run_hooks [] (tool_start_status_message initState).2).2).1.corr
       = some (tool_start_status_message initState).1.id ∧
     (tool_end_status_message
         (run_hooks [] (tool_start_status_message initState).2).2).1.id
       = (run_hooks [] (tool_start_status_message initState).2).2.step_id
           + 1 ∧
     (tool_end_status_message
         (run_hooks [] (tool_start_status_message initState).2).2).1.parent_id
       = initState.module_stack.head? ∧
     (tool_end_status_message
         (run_hooks [] (tool_start_status_message initState).2).2).2.module_stack
       = initState.module_stack) ∧
    ((module_start_status_message initState).1.id = initState.step_id + 1 ∧
     (module_start_status_message initState).1.parent_id
       = initState.module_stack.head? ∧
     (module_start_status_message initState).2.module_stack
       = (module_start_status_message initState).1.id
           :: initState.module_stack ∧
     (module_end_status_message
         (run_hooks [] (module_start_status_message initState).2).2).1.corr
       = some (module_start_status_message initState).1.id ∧
     (module_end_status_message
         (run_hooks [] (module_start_status_message initState).2).2).1.id
       = (run_hooks [] (module_start_status_message initState).2).2.step_id
           + 1 ∧
     (module_end_status_message
         (run_hooks [] (module_start_status_message initState).2).2).1.parent_id
       = initState.module_stack.head? ∧
     (module_end_status_message
         (run_hooks [] (module_start_status_message initState).2).2).2.module_stack
       = initState.module_stack) :=
  ⟨rfl, rfl, C3_scope_hooks_stack_discipline initState [] [] rfl rfl⟩

/-- C10: a scope-forming end hook arriving when the open-scope stack is
empty does not underflow (the source pops only under an emptiness guard,
embedded as a total conditional pop): it still emits an end record, with
its metadata correlation id and its `parent_id` both `none`, a fresh id is
still allocated, and the stack is left empty.  Stated for both `tool_end`
and `module_end`. -/
theorem C10_unmatched_end_hook_safe (s : ProviderState)
    (h : s.module_stack = []) :
    ((tool_end_status_message s).1.corr = none ∧
     (tool_end_status_message s).1.parent_id = none ∧
     (tool_end_status_message s).1.id = s.step_id + 1 ∧
     (tool_end_status_message s).2.module_stack = []) ∧
    ((module_end_status_message s).1.corr = none ∧
     (module_end_status_message s).1.parent_id = none ∧
     (module_end_status_message s).1.id = s.step_id + 1 ∧
     (module_end_status_message s).2.module_stack = []) := by
  obtain ⟨ea, eb, ec, ed⟩ := tool_end_fields s
  obtain ⟨fa, fb, fc, fd⟩ := module_end_fields s
  rw [h] at ea eb ed fa fb fd
  simp only [List.head?_nil, List.tail_nil] at ea eb ed fa fb fd
  exact ⟨⟨ea, eb, ec, ed⟩, ⟨fa, fb, fc, fd⟩⟩

/-- Witness for C10: an end hook on a session that has allocated five ids
but has no open scope. -/
theorem C10_unmatched_end_hook_safe_witness :
    (ProviderState.mk 5 []).module_stack = [] ∧
    (((tool_end_status_message ⟨5, []⟩).1.corr = none ∧
      (tool_end_status_message ⟨5, []⟩).1.parent_id = none ∧
      (tool_end_status_message ⟨5, []⟩).1.id = (ProviderState.mk 5 []).step_id + 1 ∧
      (tool_end_status_message ⟨5, []⟩).2.module_stack = []) ∧
     ((module_end_status_message ⟨5, []⟩).1.corr = none ∧
      (module_end_status_message ⟨5, []⟩).1.parent_id = none ∧
      (module_end_status_message ⟨5, []⟩).1.id = (ProviderState.mk 5 []).step_id + 1 ∧
      (module_end_status_message ⟨5, []⟩).2.module_stack = [])) :=
  ⟨rfl, C10_unmatched_end_hook_safe ⟨5, []⟩ rfl⟩

theorem filter_is_result_tool_calls (ms : List (String × List Val)) :
    ((ms.map fun m => WorkerMsg.tool_call m.1 m.2).filter is_result) = [] := by
  induction ms with
  | nil => rfl
  | cons m ms ih => simpa [List.filter_cons, is_result] using ih

/-- C2: on every worker run — context-artifact load failure, code-artifact
load failure, a clean snippet run, and a snippet run ended by an uncaught
fault — `main` emits exactly one result line, and it is the last line
emitted before the process exits; on the fault path that result line has
`success := false` and carries the output buffered up to the fault point. -/
theorem C2_worker_one_result_line_always_last
    (ctx_load code_load : Except String Unit) (run : ExecOutcome) :
    ((worker_main ctx_load code_load run).filter is_result).length = 1 ∧
    (∃ r, (worker_main ctx_load code_load run).getLast?
            = some (WorkerMsg.result r)) ∧
    (∀ f, run.fault = some f →
      (worker_main (.ok ()) (.ok ()) run).getLast?
        = some (WorkerMsg.result
            { success := false, output := run.output, error := some f,
              vars := none })) := by
  refine ⟨?_, ?_, ?_⟩
  · cases ctx_load with
    | error e => rfl
    | ok u =>
      cases code_load with
      | error e => rfl
      | ok u2 =>
        cases hf : run.fault with
        | none =>
          simp [worker_main, hf, List.filter_append,
            filter_is_result_tool_calls, List.filter_cons, is_result]
        | some f =>
          simp [worker_main, hf, List.filter_append,
            filter_is_result_tool_calls, List.filter_cons, is_result]
  · cases ctx_load with
    | error e => exact ⟨_, rfl⟩
    | ok u =>
      cases code_load with
      | error e => exact ⟨_, rfl⟩
      | ok u2 =>
        cases hf : run.fault with
        | none =>
          refine ⟨{ success := true, output := run.output, error := none,
                    vars := some run.vars }, ?_⟩
          simp [worker_main, hf, List.getLast?_concat]
        | some f =>
          refine ⟨{ success := false, output := run.output, error := some f,
                    vars := none }, ?_⟩
          simp [worker_main, hf, List.getLast?_concat]
  · intro f hf
    simp [worker_main, hf, List.getLast?_concat]

/-- Witness for C2: a run whose snippet sent one tool call, printed some
output, then faulted. -/
theorem C2_worker_one_result_line_always_last_witness :
    (ExecOutcome.mk [("echo", [Val.vstr "hi"])] "partial out" (some "boom")
        []).fault = some "boom" ∧
    (worker_main (.ok ()) (.ok ())
        (ExecOutcome.mk [("echo", [Val.vstr "hi"])] "partial out"
          (some "boom") [])).getLast?
      = some (WorkerMsg.result
          { success := false, output := "partial out", error := some "boom",
            vars := none }) :=
  ⟨rfl,
   (C2_worker_one_result_line_always_last (.ok ()) (.ok ())
      (ExecOutcome.mk [("echo", [Val.vstr "hi"])] "partial out" (some "boom")
        [])).2.2 "boom" rfl⟩

theorem filter_is_done_steps (steps : List StepRecord) :
    ((steps.map Controller.QItem.step).filter is_done) = [] := by
  induction steps with
  | nil => rfl
  | cons s ss ih => simp [List.filter_cons, is_done, ih]

/-- C5: on every producer run — normal completion, a recovered DSPy
parsing fault (`KeyError`), and a fatal fault that is recorded and
re-raised — the sentinel is the last queue operation, and it is enqueued
exactly once. -/
theorem C5_sentinel_unconditional_and_unique
    (steps : List StepRecord) (outcome : RunOutcome) :
    (produce steps outcome).queue_ops.getLast? = some Controller.QItem.done ∧
    ((produce steps outcome).queue_ops.filter is_done).length = 1 := by
  cases outcome <;>
    simp [produce, List.getLast?_concat, List.filter_append,
      filter_is_done_steps, List.filter_cons, is_done]

/-- C9: a session whose initial request is missing `query` or `context`
(or supplies it empty) sends exactly one error message — no step message,
no final-answer message — closes the connection, and never runs the
pipeline (the session's messages are the same whatever the pipeline would
have done). -/
theorem C9_invalid_request_single_error_then_close
    (d : ReqData) (p q : RLMRequest → PipelineRun)
    (h : truthy d.query = false ∨ truthy d.context = false) :
    Controller.handle d p = ([.error_msg "Missing query or context"], true) ∧
    Controller.handle d p = Controller.handle d q ∧
    (Controller.handle d p).1.filter is_step_msg = [] ∧
    (Controller.handle d p).1.filter is_final_msg = [] := by
  have hv : receive_and_validate d
      = ([.error_msg "Missing query or context"], none) := by
    unfold receive_and_validate
    rcases h with h | h <;> simp [h]
  refine ⟨?_, ?_, ?_, ?_⟩ <;>
    simp [Controller.handle, hv, List.filter_cons, is_step_msg, is_final_msg]

/-- Witness for C9: a request carrying a query but no context, against two
different would-be pipelines. -/
theorem C9_invalid_request_single_error_then_close_witness :
    (truthy (ReqData.mk (some "q") none none).query = false ∨
     truthy (ReqData.mk (some "q") none none).context = false) ∧
    Controller.handle (ReqData.mk (some "q") none none)
        (fun _ => PipelineRun.mk [] none none)
      = ([.error_msg "Missing query or context"], true) :=
  ⟨Or.inr rfl,
   (C9_invalid_request_single_error_then_close (ReqData.mk (some "q") none none)
      (fun _ => PipelineRun.mk [] none none)
      (fun _ => PipelineRun.mk [] (some "a") none) (Or.inr rfl)).1⟩

/-- C6: a tool-call-tagged line whose payload fails to parse is skipped
without aborting the run — processing it leaves `final_result` untouched
(only the caught-and-logged error response is written back) and the loop
continues with the remaining worker output exactly as it would have — and
a subsequent well-formed result line still becomes the `ExecutionResult`
that `execute` returns. -/
theorem C6_malformed_tool_call_line_skipped
    (tools : List (String × Tool)) (evs : List LineEvent) (st : LoopState)
    (r : WResult) (exit_code : Int) (stderr : String) :
    run_loop tools (LineEvent.tool_call_line none :: evs) st
      = run_loop tools evs
          { st with
            responses := st.responses ++ [.error "IPC Protocol Error"] } ∧
    execute_outcome tools
        [LineEvent.tool_call_line none, LineEvent.result_line (some r),
         LineEvent.no_line true] exit_code stderr
      = some (ExecuteOutcome.result r) := by
  exact ⟨rfl, rfl⟩

/-- C1 (failing-input evaluation): `execute` never enforces its timeout.
Against a worker whose snippet never terminates and writes nothing, the
stdout loop continues past every read wakeup — however many are observed,
`execute` has not returned, and in particular has not returned the claimed
timed-out result within any bound.  Moreover no run of `execute` at all can
return the `timed out` result: `process.communicate()` is invoked without a
`timeout` argument, so `subprocess.TimeoutExpired` — the only trigger for
the handler that builds that result — is never raised. -/
theorem C1_timeout_never_enforced (tools : List (String × Tool)) :
    (∀ n st, run_loop tools (hung_worker_events n) st = none) ∧
    (∀ evs exit_code stderr,
      Option.all (fun o => !(is_timed_out o))
        (execute_outcome tools evs exit_code stderr) = true) := by
  constructor
  · intro n
    induction n with
    | zero => intro st; rfl
    | succ n ih =>
      intro st
      simpa [hung_worker_events, List.replicate_succ, run_loop,
        loop_step] using ih st
  · intro evs exit_code stderr
    unfold execute_outcome
    cases hr : run_loop tools evs initLoop with
    | none => rfl
    | some st =>
      cases hf : st.final_result <;>
        simp [Option.all, finish, hf, is_timed_out]

/-- C7 counterexample: an input inside the claim's quantified class — it
contains the two-character backslash-n sequence and no real newline — on
which `execute` does not unescape: the repair's `unicode_escape` decode
faults on the trailing lone backslash, the first branch has no handler,
and `execute` returns the generic error dictionary instead; the snippet
is never written to the code artifact, let alone executed as two lines. -/
theorem C7_unescape_can_fault_counterexample :
    hasSub ['\\', 'n'] ("print('a')\\nprint('b')\\").data = true ∧
    hasSub ['\n'] ("print('a')\\nprint('b')\\").data = false ∧
    preprocess_code "print('a')\\nprint('b')\\"
      = .error "\\ at end of string" ∧
    execute_prepare "print('a')\\nprint('b')\\"
      = .error { success := false, output := "",
                 error := some "\\ at end of string", vars := none } := by
  exact ⟨rfl, rfl, rfl, rfl⟩

/-- C7 (amended): when the input code contains the two-character sequence
backslash-n but no real newline, and the `unicode_escape` decode of the
code succeeds, `execute` unescapes it — the decoded string is what is
written to the code artifact; in particular the input
`print('a')\nprint('b')` (literal backslash-n, no real line break)
decodes successfully and becomes two real lines that are two sequential
statements. -/
theorem C7_escaped_newline_unescaped (code : String) (ds : List Char)
    (h1 : hasSub ['\\', 'n'] code.data = true)
    (h2 : hasSub ['\n'] code.data = false)
    (h3 : py_unicode_escape code.data = .ok ds) :
    preprocess_code code = .ok (String.mk ds) ∧
    execute_prepare code = .ok (String.mk ds) ∧
    preprocess_code "print('a')\\nprint('b')"
      = .ok "print('a')\nprint('b')" ∧
    ("print('a')\nprint('b')").data
      = ("print('a')").data ++ '\n' :: ("print('b')").data ∧
    hasSub ['\n'] ("print('a')").data = false ∧
    hasSub ['\n'] ("print('b')").data = false := by
  have hp : preprocess_code code = .ok (String.mk ds) := by
    unfold preprocess_code
    simp [h1, h2, h3]
  refine ⟨hp, ?_, rfl, by decide, rfl, rfl⟩
  unfold execute_prepare
  rw [hp]

/-- Witness for C7 (amended) at the spec's doubly-encoded input. -/
theorem C7_escaped_newline_unescaped_witness :
    hasSub ['\\', 'n'] ("print('a')\\nprint('b')").data = true ∧
    hasSub ['\n'] ("print('a')\\nprint('b')").data = false ∧
    py_unicode_escape ("print('a')\\nprint('b')").data
      = .ok (("print('a')\nprint('b')").data) ∧
    preprocess_code "print('a')\\nprint('b')"
      = .ok "print('a')\nprint('b')" :=
  ⟨rfl, rfl, rfl,
   (C7_escaped_newline_unescaped "print('a')\\nprint('b')"
      (("print('a')\nprint('b')").data) rfl rfl rfl).1⟩

/-- C8: a snippet's call to a registered tool's proxy sends exactly one
`{name, args}` message, reads exactly one response line, and — when the
host callable returns normally, so the coordinator answers
`status:success` — the proxy returns exactly the host callable's return
value. -/
theorem C8_tool_proxy_returns_host_value
    (tools : List (String × Tool)) (name : String) (args : List Val)
    (f : Tool) (v : Val)
    (hlook : lookup_tool tools name = some f) (hok : f args = .ok v) :
    tool_round_trip tools name args
      = ([WorkerProc.ToolCallMsg.mk name args], .ok v) := by
  have h : handle_tool_call tools name args
      = WorkerProc.ToolResponse.success v := by
    simp [handle_tool_call, hlook, hok]
  unfold tool_round_trip
  rw [h]
  rfl

/-- Witness for C8: the registered tool `echo(x) → x` invoked as
`echo("hi")` yields proxy return value `"hi"`. -/
theorem C8_tool_proxy_returns_host_value_witness :
    lookup_tool [("echo", echo)] "echo" = some echo ∧
    echo [Val.vstr "hi"] = .ok (Val.vstr "hi") ∧
    tool_round_trip [("echo", echo)] "echo" [Val.vstr "hi"]
      = ([WorkerProc.ToolCallMsg.mk "echo" [Val.vstr "hi"]],
         .ok (Val.vstr "hi")) :=
  ⟨rfl, rfl,
   C8_tool_proxy_returns_host_value [("echo", echo)] "echo" [Val.vstr "hi"]
     echo (Val.vstr "hi") rfl rfl⟩
